import Mathlib

/-!
Verification of the snapshot blob container (src/snapshot/snapshot.cc).

The blob is modelled as a `List Nat` of bytes.  Header fields are 4-byte
little-endian unsigned 32-bit integers.  The imperative buffer used by
`Snapshot::CreateSnapshotBlob` is modelled as a `List (Option Nat)` where
`none` stands for a byte that has never been written (the buffer comes from
`new char[total_length]`, which is uninitialized).  Fatal `CHECK` failures are
modelled by `Option`-returning functions: `none` means the process aborts.

The platform is taken to be 64-bit, so `POINTER_SIZE_ALIGN` rounds up to a
multiple of 8.
-/

set_option autoImplicit false
set_option maxRecDepth 40000

namespace SnapshotModel

/-! ### Layout constants (SnapshotImpl) -/

def kNumberOfContextsOffset : Nat := 0
def kRehashabilityOffset : Nat := 4
def kChecksumOffset : Nat := 8
def kVersionStringOffset : Nat := 12
def kVersionStringLength : Nat := 64
def kReadOnlyOffsetOffset : Nat := 76
def kFirstContextOffsetOffset : Nat := 80

/-- POINTER_SIZE_ALIGN on a 64-bit platform: round up to a multiple of 8. -/
def align8 (n : Nat) : Nat := (n + 7) / 8 * 8

/-- SnapshotImpl::StartupSnapshotOffset. -/
def startupSnapshotOffset (numContexts : Nat) : Nat := align8 (80 + numContexts * 4)

/-- SnapshotImpl::ContextSnapshotOffsetOffset. -/
def contextSnapshotOffsetOffset (index : Nat) : Nat := 80 + index * 4

/-! ### Little-endian 32-bit reads and writes -/

/-- The four bytes of a `uint32` value, least significant first
(base::WriteLittleEndianValue). -/
def le32 (v : Nat) : List Nat :=
  [v % 256, v / 256 % 256, v / 65536 % 256, v / 16777216 % 256]

/-- Read a `uint32` stored little-endian at byte offset `off`
(base::ReadLittleEndianValue, SnapshotImpl::GetHeaderValue).  Each memory cell
holds one byte, hence the reductions mod 256. -/
def rd32 (d : List Nat) (off : Nat) : Nat :=
  d.getD off 0 % 256 + 256 * (d.getD (off + 1) 0 % 256) +
    65536 * (d.getD (off + 2) 0 % 256) + 16777216 * (d.getD (off + 3) 0 % 256)

/-- Overwrite the bytes of `d` starting at `off` with `src` (memcpy / CopyBytes /
SetHeaderValue).  All writes performed by the code are in bounds. -/
def writeBytes {α : Type} (d : List α) (off : Nat) (src : List α) : List α :=
  d.take off ++ src ++ d.drop (off + src.length)

/-- The 64-byte version-string field: the running build's version bytes,
null-padded to 64 bytes (memset 0 followed by Version::GetString). -/
def pad64 (ver : List Nat) : List Nat := (ver ++ List.replicate 64 0).take 64

/-- Total byte count of a list of segments. -/
def sumLens (cs : List (List Nat)) : Nat := (cs.map List.length).sum

/-! ### The assembled blob, in closed form -/

/-- The context-offset array written by the assembly loop: entry `i` holds the
running payload offset at which context `i` was copied. -/
def ctxOffsetsBytes : Nat → List (List Nat) → List Nat
  | _, [] => []
  | off, c :: rest => le32 off ++ ctxOffsetsBytes (off + c.length) rest

/-- Bytes of the assembled blob from offset 12 (the version-string field) to the
end: version field, read-only offset, context-offset array, alignment padding,
then the three segment groups. -/
def blobTail (ver st ro : List Nat) (ctxs : List (List Nat)) : List Nat :=
  pad64 ver ++ le32 (startupSnapshotOffset ctxs.length + st.length) ++
    ctxOffsetsBytes (startupSnapshotOffset ctxs.length + st.length + ro.length) ctxs ++
    List.replicate (startupSnapshotOffset ctxs.length - (80 + 4 * ctxs.length)) 0 ++
    st ++ ro ++ ctxs.flatten

/-- Closed form of the blob produced by Snapshot::CreateSnapshotBlob (proved
equal to the imperative construction below). -/
def assembledBlob (ver st ro : List Nat) (ctxs : List (List Nat)) (rehash : Bool)
    (cks : List Nat → Nat) : List Nat :=
  le32 ctxs.length ++ le32 (if rehash then 1 else 0) ++
    le32 (cks (blobTail ver st ro ctxs)) ++ blobTail ver st ro ctxs

/-! ### The imperative construction (Snapshot::CreateSnapshotBlob) -/

/-- The buffer allocated at snapshot.cc:250-252: `new char[total_length]`
(uninitialized, modelled as `none`) followed by
`memset(data, 0, StartupSnapshotOffset(num_contexts))`, which zeroes only the
pre-payload region. -/
def allocatedPrePayloadBuffer (numContexts totalLength : Nat) : List (Option Nat) :=
  writeBytes (List.replicate totalLength (none : Option Nat)) 0
    (List.replicate (startupSnapshotOffset numContexts) (some 0))

/-- The context loop of CreateSnapshotBlob: for each context, record the running
payload offset in the header's context-offset array, then copy its bytes. -/
def writeCtxs (d : List (Option Nat)) (payloadOffset i : Nat) :
    List (List Nat) → List (Option Nat)
  | [] => d
  | c :: rest =>
      writeCtxs
        (writeBytes (writeBytes d (80 + 4 * i) ((le32 payloadOffset).map some))
          payloadOffset (c.map some))
        (payloadOffset + c.length) (i + 1) rest

/-- Snapshot::CreateSnapshotBlob, step by step.  `cks` is the external Checksum
function (snapshot-utils, out of scope; any uint32-valued function).  `ver` is
the byte string written by Version::GetString.  Compression is disabled
(V8_SNAPSHOT_COMPRESSION not defined), so segments pass through unchanged; the
round-trip statements therefore speak about the possibly-compressed inputs. -/
def createSnapshotBlobRaw (ver st ro : List Nat) (ctxs : List (List Nat))
    (rehash : Bool) (cks : List Nat → Nat) : List (Option Nat) :=
  let numContexts := ctxs.length
  let startupOffset := startupSnapshotOffset numContexts
  let totalLength := startupOffset + st.length + ro.length + sumLens ctxs
  let d1 := allocatedPrePayloadBuffer numContexts totalLength
  let d2 := writeBytes d1 0 ((le32 numContexts).map some)
  let d3 := writeBytes d2 4 ((le32 (if rehash then 1 else 0)).map some)
  let d4 := writeBytes d3 12 ((pad64 ver).map some)
  let d5 := writeBytes d4 startupOffset (st.map some)
  let readOnlyOffset := startupOffset + st.length
  let d6 := writeBytes d5 76 ((le32 readOnlyOffset).map some)
  let d7 := writeBytes d6 readOnlyOffset (ro.map some)
  let d8 := writeCtxs d7 (readOnlyOffset + ro.length) 0 ctxs
  let checksum := cks ((d8.map (fun b => b.getD 0)).drop 12)
  writeBytes d8 8 ((le32 checksum).map some)

/-- The bytes of the blob returned by Snapshot::CreateSnapshotBlob. -/
def createSnapshotBlob (ver st ro : List Nat) (ctxs : List (List Nat))
    (rehash : Bool) (cks : List Nat → Nat) : List Nat :=
  (createSnapshotBlobRaw ver st ro ctxs rehash cks).map (fun b => b.getD 0)

/-! ### CreateSnapshotBlob with the profiling flag modelled

FLAG_profile_deserialization only guards PrintF calls.  To state that the flag
cannot affect the produced bytes, the same construction is repeated with the
flag and the emitted diagnostic records made explicit.  A diagnostic record is
a list of the numbers printed (byte counts, reservation-chunk counts, context
index); `stRes`, `roRes` and `ctxRes` are the reservation chunk sizes of the
input SnapshotData objects, which only feed the diagnostics. -/

/-- ProfileDeserialization: the summary lines printed before assembly when the
flag is set (total reserved bytes per isolate, then per context). -/
def profileDeserializationLog (roRes stRes : List Nat) (ctxRes : List (List Nat)) :
    List (List Nat) :=
  [[roRes.sum + stRes.sum]] ++
    (List.range ctxRes.length).map (fun i => [(ctxRes.getD i []).sum, i])

/-- The context loop of CreateSnapshotBlob with its per-context PrintF
modelled: same writes as `writeCtxs`, plus one record per context when the
flag is set. -/
def writeCtxsProf (profile : Bool) (d : List (Option Nat)) (payloadOffset i : Nat) :
    List (List Nat) → List (List Nat) → List (Option Nat) × List (List Nat)
  | [], _ => (d, [])
  | c :: rest, res =>
      let pr := writeCtxsProf profile
        (writeBytes (writeBytes d (80 + 4 * i) ((le32 payloadOffset).map some))
          payloadOffset (c.map some))
        (payloadOffset + c.length) (i + 1) rest res.tail
      (pr.1, (if profile then [[c.length, (res.headD []).length, i]] else []) ++ pr.2)

/-- Snapshot::CreateSnapshotBlob with FLAG_profile_deserialization modelled:
returns the produced bytes together with the diagnostic records emitted. -/
def createSnapshotBlobProf (profile : Bool) (ver st ro : List Nat)
    (ctxs : List (List Nat)) (rehash : Bool) (cks : List Nat → Nat)
    (stRes roRes : List Nat) (ctxRes : List (List Nat)) :
    List Nat × List (List Nat) :=
  let numContexts := ctxs.length
  let startupOffset := startupSnapshotOffset numContexts
  let totalLength := startupOffset + st.length + ro.length + sumLens ctxs
  let log0 := if profile then profileDeserializationLog roRes stRes ctxRes else []
  let d1 := allocatedPrePayloadBuffer numContexts totalLength
  let d2 := writeBytes d1 0 ((le32 numContexts).map some)
  let d3 := writeBytes d2 4 ((le32 (if rehash then 1 else 0)).map some)
  let d4 := writeBytes d3 12 ((pad64 ver).map some)
  let d5 := writeBytes d4 startupOffset (st.map some)
  let log1 := if profile then [[st.length, stRes.length]] else []
  let readOnlyOffset := startupOffset + st.length
  let d6 := writeBytes d5 76 ((le32 readOnlyOffset).map some)
  let d7 := writeBytes d6 readOnlyOffset (ro.map some)
  let log2 := if profile then [[ro.length]] else []
  let pr := writeCtxsProf profile d7 (readOnlyOffset + ro.length) 0 ctxs ctxRes
  let checksum := cks ((pr.1.map (fun b => b.getD 0)).drop 12)
  ((writeBytes pr.1 8 ((le32 checksum).map some)).map (fun b => b.getD 0),
    log0 ++ (log1 ++ (log2 ++ pr.2)))

/-! ### Extraction (SnapshotImpl) -/

/-- SnapshotImpl::ExtractNumContexts.  `none` models the fatal
`CHECK_LT(kNumberOfContextsOffset, data->raw_size)`. -/
def extractNumContexts (d : List Nat) : Option Nat :=
  if 0 < d.length then some (rd32 d 0) else none

/-- SnapshotImpl::ExtractContextOffset: read the offset of context `index` and
check it is below `raw_size`. -/
def extractContextOffset (d : List Nat) (index : Nat) : Option Nat :=
  if rd32 d (80 + 4 * index) < d.length then some (rd32 d (80 + 4 * index)) else none

/-- The anonymous-namespace ExtractData helper: `CHECK_LT(start, end)`,
`CHECK_LT(end, raw_size)`, then a zero-copy view `(start, end - start)`. -/
def extractData (d : List Nat) (startOffset endOffset : Nat) : Option (Nat × Nat) :=
  if startOffset < endOffset ∧ endOffset < d.length then
    some (startOffset, endOffset - startOffset)
  else none

/-- SnapshotImpl::ExtractStartupData. -/
def extractStartupData (d : List Nat) : Option (Nat × Nat) :=
  (extractNumContexts d).bind fun k =>
    extractData d (startupSnapshotOffset k) (rd32 d 76)

/-- SnapshotImpl::ExtractReadOnlyData: from the stored read-only offset to the
stored offset of context 0. -/
def extractReadOnlyData (d : List Nat) : Option (Nat × Nat) :=
  extractData d (rd32 d 76) (rd32 d 80)

/-- SnapshotImpl::ExtractContextData.  The length subtraction is performed on
`uint32` values, hence the explicit wraparound mod 2^32. -/
def extractContextData (d : List Nat) (index : Nat) : Option (Nat × Nat) :=
  (extractNumContexts d).bind fun k =>
    if index < k then
      (extractContextOffset d index).bind fun off =>
        (if index = k - 1 then some d.length
         else
           (extractContextOffset d (index + 1)).bind fun nxt =>
             if nxt < d.length then some nxt else none).bind
          fun nxt => some (off, (nxt + 4294967296 - off) % 4294967296)
    else none

/-- The bytes of a zero-copy view `(start, length)`. -/
def viewBytes (d : List Nat) (v : Nat × Nat) : List Nat := (d.drop v.1).take v.2

/-! ### Checksum (SnapshotImpl::ChecksummedContent, Snapshot::VerifyChecksum) -/

/-- SnapshotImpl::ChecksummedContent: everything from the version-string field
(offset 12) to the end of the blob. -/
def checksummedContent (d : List Nat) : List Nat := d.drop 12

/-- Snapshot::VerifyChecksum: recompute over the checksummed content and compare
with the stored header field. -/
def verifyChecksum (cks : List Nat → Nat) (d : List Nat) : Bool :=
  cks (checksummedContent d) == rd32 d 8

/-! ### Version check (SnapshotImpl::CheckVersion) -/

/-- C `strncmp(a, b, n) == 0`: compare at most `n` bytes, stopping early at the
first differing byte or at a null byte present in both strings. -/
def strncmpIsEqual : List Nat → List Nat → Nat → Bool
  | _, _, 0 => true
  | a, b, n + 1 =>
    if a.headD 0 ≠ b.headD 0 then false
    else if a.headD 0 = 0 then true
    else strncmpIsEqual a.tail b.tail n

/-- Outcome of SnapshotImpl::CheckVersion: either the check passes, or the
bounds `CHECK` fails, or the process aborts with the FATAL diagnostic carrying
the binary's version field, the snapshot's version field, the blob size and the
context count. -/
inductive VersionCheckResult where
  | ok : VersionCheckResult
  | checkFailed : VersionCheckResult
  | mismatch (binaryVersion snapshotVersion : List Nat) (blobSize numContexts : Nat) :
      VersionCheckResult
deriving DecidableEq

/-- SnapshotImpl::CheckVersion.  `runningVersion` is what Version::GetString
writes for the running build. -/
def checkVersion (runningVersion : List Nat) (d : List Nat) : VersionCheckResult :=
  if 76 < d.length then
    if strncmpIsEqual (pad64 runningVersion) ((d.drop 12).take 64) 64 then
      VersionCheckResult.ok
    else
      VersionCheckResult.mismatch (pad64 runningVersion) ((d.drop 12).take 64)
        d.length (rd32 d 0)
  else VersionCheckResult.checkFailed

/-! ### Snapshot::HasContextSnapshot -/

/-- Snapshot::HasContextSnapshot.  The isolate's attached snapshot is
`none` when `snapshot_blob()` is null, `some none` when the blob's `data`
pointer is null, and `some (some d)` otherwise.  The result is `none` exactly
when a fatal `CHECK` fires. -/
def hasContextSnapshot (blob : Option (Option (List Nat))) (index : Nat) : Option Bool :=
  match blob with
  | none => some false
  | some none => some false
  | some (some d) => (extractNumContexts d).map fun k => decide (index < k)

/-! ### Helper for concrete test blobs -/

/-- Build a blob byte string directly from header fields and payload (the
payload includes any alignment padding). -/
def mkBlob (numContexts rehash checksum : Nat) (versionField : List Nat)
    (readOnlyOffset : Nat) (ctxOffsets : List Nat) (payload : List Nat) : List Nat :=
  le32 numContexts ++ le32 rehash ++ le32 checksum ++ pad64 versionField ++
    le32 readOnlyOffset ++ (ctxOffsets.map le32).flatten ++ payload

/-- The valid-blob invariant of the container format: the header is present,
the size fits in a (positive) `int`, there is at least one context, and the
recorded offsets are strictly increasing and in bounds. -/
def validBlob (d : List Nat) : Bool :=
  let k := rd32 d 0
  decide (76 < d.length) && decide (d.length < 2147483648) && decide (0 < k) &&
    decide (startupSnapshotOffset k < rd32 d 76) &&
    decide (rd32 d 76 < rd32 d 80) &&
    ((List.range k).all fun i => decide (rd32 d (80 + 4 * i) < d.length)) &&
    ((List.range (k - 1)).all fun i =>
      decide (rd32 d (80 + 4 * i) < rd32 d (80 + 4 * (i + 1))))

/-! ### Basic facts about the layout helpers -/

theorem align8_ge (n : Nat) : n ≤ align8 n := by
  unfold align8; omega

theorem align8_lt (n : Nat) : align8 n < n + 8 := by
  unfold align8; omega

theorem startupSnapshotOffset_ge (k : Nat) : 80 + 4 * k ≤ startupSnapshotOffset k := by
  have h := align8_ge (80 + k * 4)
  unfold startupSnapshotOffset
  omega

theorem length_le32 (v : Nat) : (le32 v).length = 4 := rfl

theorem length_pad64 (ver : List Nat) : (pad64 ver).length = 64 := by
  simp [pad64]

theorem length_ctxOffsetsBytes (cs : List (List Nat)) :
    ∀ off : Nat, (ctxOffsetsBytes off cs).length = 4 * cs.length := by
  induction cs with
  | nil => intro off; simp [ctxOffsetsBytes]
  | cons c rest ih =>
      intro off
      simp [ctxOffsetsBytes, le32, ih]
      omega

theorem rd32_lt (d : List Nat) (off : Nat) : rd32 d off < 4294967296 := by
  unfold rd32
  have h0 := Nat.mod_lt (d.getD off 0) (y := 256) (by omega)
  have h1 := Nat.mod_lt (d.getD (off + 1) 0) (y := 256) (by omega)
  have h2 := Nat.mod_lt (d.getD (off + 2) 0) (y := 256) (by omega)
  have h3 := Nat.mod_lt (d.getD (off + 3) 0) (y := 256) (by omega)
  omega

/-! ### Writing a chunk of a buffer -/

theorem writeBytes_at_chunk {α : Type} (pre mid post src : List α) (off : Nat)
    (hoff : off = pre.length) (hlen : src.length = mid.length) :
    writeBytes (pre ++ (mid ++ post)) off src = pre ++ (src ++ post) := by
  subst hoff
  unfold writeBytes
  rw [List.take_append_eq_append_take, List.drop_append_eq_append_drop]
  rw [List.take_of_length_le (Nat.le_refl _), Nat.sub_self, List.take_zero]
  rw [List.drop_eq_nil_of_le (by omega), List.nil_append]
  have h2 : pre.length + src.length - pre.length = src.length := by omega
  rw [h2, hlen]
  rw [List.drop_append_eq_append_drop, List.drop_eq_nil_of_le (Nat.le_refl _),
    Nat.sub_self, List.drop_zero, List.nil_append]
  simp

theorem replicate_split {α : Type} (x : α) (n a : Nat) (h : a ≤ n) :
    List.replicate n x = List.replicate a x ++ List.replicate (n - a) x := by
  rw [← List.replicate_add]
  congr 1
  omega

/-! ### Normal form of the context-writing loop -/

theorem writeCtxs_eq (cs : List (List Nat)) :
    ∀ (i : Nat) (A B : List (Option Nat)) (z : Nat),
      A.length = 80 + 4 * i → 4 * cs.length ≤ z →
      writeCtxs (A ++ (List.replicate z (some 0) ++ (B ++ List.replicate (sumLens cs) none)))
          (A.length + z + B.length) i cs =
        A ++ ((ctxOffsetsBytes (A.length + z + B.length) cs).map some ++
          (List.replicate (z - 4 * cs.length) (some 0) ++ (B ++ cs.flatten.map some))) := by
  induction cs with
  | nil =>
      intro i A B z hA hz
      simp [writeCtxs, ctxOffsetsBytes, sumLens]
  | cons c rest ih =>
      intro i A B z hA hz
      have hz4 : 4 ≤ z := by
        simp only [List.length_cons] at hz; omega
      have hrest : 4 * rest.length ≤ z - 4 := by
        simp only [List.length_cons] at hz; omega
      have hsum : sumLens (c :: rest) = c.length + sumLens rest := by
        simp [sumLens]
      rw [writeCtxs]
      -- first write: the context offset, at position 80 + 4*i = A.length
      have hsplitz : List.replicate z (some 0) =
          List.replicate 4 (some 0) ++ List.replicate (z - 4) (some 0) :=
        replicate_split _ _ _ hz4
      have e1 : writeBytes
            (A ++ (List.replicate z (some 0) ++ (B ++ List.replicate (sumLens (c :: rest)) none)))
            (80 + 4 * i) ((le32 (A.length + z + B.length)).map some) =
          A ++ ((le32 (A.length + z + B.length)).map some ++
            (List.replicate (z - 4) (some 0) ++ (B ++ List.replicate (sumLens (c :: rest)) none))) := by
        rw [hsplitz, List.append_assoc]
        exact writeBytes_at_chunk _ _ _ _ _ (by omega) (by simp [le32])
      rw [e1]
      -- second write: the context bytes, at the running payload offset
      have hsplitn : List.replicate (sumLens (c :: rest)) (none : Option Nat) =
          List.replicate c.length none ++ List.replicate (sumLens rest) none := by
        rw [hsum, List.replicate_add]
      have e2 : writeBytes
            (A ++ ((le32 (A.length + z + B.length)).map some ++
              (List.replicate (z - 4) (some 0) ++ (B ++ List.replicate (sumLens (c :: rest)) none))))
            (A.length + z + B.length) (c.map some) =
          (A ++ ((le32 (A.length + z + B.length)).map some ++
            (List.replicate (z - 4) (some 0) ++ B))) ++
            (c.map some ++ List.replicate (sumLens rest) none) := by
        rw [hsplitn]
        have hre : A ++ ((le32 (A.length + z + B.length)).map some ++
              (List.replicate (z - 4) (some 0) ++
                (B ++ (List.replicate c.length (none : Option Nat) ++
                  List.replicate (sumLens rest) none)))) =
            (A ++ ((le32 (A.length + z + B.length)).map some ++
              (List.replicate (z - 4) (some 0) ++ B))) ++
              (List.replicate c.length (none : Option Nat) ++
                List.replicate (sumLens rest) none) := by
          simp [List.append_assoc]
        rw [hre]
        exact writeBytes_at_chunk _ (List.replicate c.length none)
          (List.replicate (sumLens rest) none) (c.map some) _
          (by simp [le32]; omega) (by simp)
      rw [e2]
      -- re-associate so the loop invariant applies to the tail of the list
      have hre2 : (A ++ ((le32 (A.length + z + B.length)).map some ++
            (List.replicate (z - 4) (some 0) ++ B))) ++
            (c.map some ++ List.replicate (sumLens rest) none) =
          (A ++ (le32 (A.length + z + B.length)).map some) ++
            (List.replicate (z - 4) (some 0) ++
              ((B ++ c.map some) ++ List.replicate (sumLens rest) none)) := by
        simp [List.append_assoc]
      rw [hre2]
      have hmain := ih (i + 1) (A ++ (le32 (A.length + z + B.length)).map some)
        (B ++ c.map some) (z - 4) (by simp [le32]; omega) hrest
      have hpay : (A ++ (le32 (A.length + z + B.length)).map some).length + (z - 4) +
          (B ++ c.map some).length = A.length + z + B.length + c.length := by
        simp [le32]
        omega
      rw [hpay] at hmain
      rw [hmain]
      have hcount : z - 4 - 4 * rest.length = z - 4 * (c :: rest).length := by
        simp only [List.length_cons]
        omega
      rw [hcount]
      simp only [ctxOffsetsBytes, List.flatten_cons, List.map_append, List.append_assoc]

theorem writeBytes_at_start {α : Type} (mid post src : List α)
    (hlen : src.length = mid.length) :
    writeBytes (mid ++ post) 0 src = src ++ post := by
  unfold writeBytes
  simp [hlen, List.drop_left]

theorem map_some_getD (x : List Nat) : (x.map some).map (fun b => b.getD 0) = x := by
  induction x with
  | nil => rfl
  | cons a t ih => simp only [List.map_cons, Option.getD_some, ih]

/-! ### Normal form of Snapshot::CreateSnapshotBlob -/

theorem createSnapshotBlobRaw_eq (ver st ro : List Nat) (ctxs : List (List Nat))
    (rehash : Bool) (cks : List Nat → Nat) :
    createSnapshotBlobRaw ver st ro ctxs rehash cks =
      (assembledBlob ver st ro ctxs rehash cks).map some := by
  have hS : 80 + 4 * ctxs.length ≤ startupSnapshotOffset ctxs.length :=
    startupSnapshotOffset_ge ctxs.length
  simp only [createSnapshotBlobRaw]
  -- step 1: allocation and memset of the pre-payload region
  have h1 : allocatedPrePayloadBuffer ctxs.length
        (startupSnapshotOffset ctxs.length + st.length + ro.length + sumLens ctxs) =
      List.replicate (startupSnapshotOffset ctxs.length) (some 0) ++
        List.replicate (st.length + ro.length + sumLens ctxs) none := by
    unfold allocatedPrePayloadBuffer
    rw [show startupSnapshotOffset ctxs.length + st.length + ro.length + sumLens ctxs =
        startupSnapshotOffset ctxs.length + (st.length + ro.length + sumLens ctxs) from by omega]
    rw [List.replicate_add]
    exact writeBytes_at_start _ _ _ (by simp)
  rw [h1]
  -- step 2: number of contexts, at offset 0
  have h2 : writeBytes
        (List.replicate (startupSnapshotOffset ctxs.length) (some 0) ++
          List.replicate (st.length + ro.length + sumLens ctxs) none) 0
        ((le32 ctxs.length).map some) =
      (le32 ctxs.length).map some ++
        (List.replicate (startupSnapshotOffset ctxs.length - 4) (some 0) ++
          List.replicate (st.length + ro.length + sumLens ctxs) none) := by
    rw [replicate_split (some 0) (startupSnapshotOffset ctxs.length) 4 (by omega),
      List.append_assoc]
    exact writeBytes_at_start _ _ _ (by simp [le32])
  rw [h2]
  -- step 3: rehashability, at offset 4
  have h3 : writeBytes
        ((le32 ctxs.length).map some ++
          (List.replicate (startupSnapshotOffset ctxs.length - 4) (some 0) ++
            List.replicate (st.length + ro.length + sumLens ctxs) none)) 4
        ((le32 (if rehash then 1 else 0)).map some) =
      (le32 ctxs.length).map some ++
        ((le32 (if rehash then 1 else 0)).map some ++
          (List.replicate (startupSnapshotOffset ctxs.length - 8) (some 0) ++
            List.replicate (st.length + ro.length + sumLens ctxs) none)) := by
    rw [replicate_split (some 0) (startupSnapshotOffset ctxs.length - 4) 4 (by omega),
      show startupSnapshotOffset ctxs.length - 4 - 4 =
        startupSnapshotOffset ctxs.length - 8 from by omega]
    have hre : (le32 ctxs.length).map some ++
          ((List.replicate 4 (some 0) ++
            List.replicate (startupSnapshotOffset ctxs.length - 8) (some 0)) ++
            List.replicate (st.length + ro.length + sumLens ctxs) none) =
        (le32 ctxs.length).map some ++
          (List.replicate 4 (some 0) ++
            (List.replicate (startupSnapshotOffset ctxs.length - 8) (some 0) ++
              List.replicate (st.length + ro.length + sumLens ctxs) none)) := by
      simp [List.append_assoc]
    rw [hre]
    exact writeBytes_at_chunk _ _ _ _ _ (by simp [le32]) (by simp [le32])
  rw [h3]
  -- step 4: version string, at offset 12
  have h4 : writeBytes
        ((le32 ctxs.length).map some ++
          ((le32 (if rehash then 1 else 0)).map some ++
            (List.replicate (startupSnapshotOffset ctxs.length - 8) (some 0) ++
              List.replicate (st.length + ro.length + sumLens ctxs) none))) 12
        ((pad64 ver).map some) =
      ((le32 ctxs.length).map some ++
        ((le32 (if rehash then 1 else 0)).map some ++ List.replicate 4 (some 0))) ++
        ((pad64 ver).map some ++
          (List.replicate (startupSnapshotOffset ctxs.length - 76) (some 0) ++
            List.replicate (st.length + ro.length + sumLens ctxs) none)) := by
    rw [replicate_split (some 0) (startupSnapshotOffset ctxs.length - 8) 4 (by omega),
      show startupSnapshotOffset ctxs.length - 8 - 4 =
        startupSnapshotOffset ctxs.length - 12 from by omega,
      replicate_split (some 0) (startupSnapshotOffset ctxs.length - 12) 64 (by omega),
      show startupSnapshotOffset ctxs.length - 12 - 64 =
        startupSnapshotOffset ctxs.length - 76 from by omega]
    have hre : (le32 ctxs.length).map some ++
          ((le32 (if rehash then 1 else 0)).map some ++
            ((List.replicate 4 (some 0) ++
              (List.replicate 64 (some 0) ++
                List.replicate (startupSnapshotOffset ctxs.length - 76) (some 0))) ++
              List.replicate (st.length + ro.length + sumLens ctxs) none)) =
        ((le32 ctxs.length).map some ++
          ((le32 (if rehash then 1 else 0)).map some ++ List.replicate 4 (some 0))) ++
          (List.replicate 64 (some 0) ++
            (List.replicate (startupSnapshotOffset ctxs.length - 76) (some 0) ++
              List.replicate (st.length + ro.length + sumLens ctxs) none)) := by
      simp [List.append_assoc]
    rw [hre]
    exact writeBytes_at_chunk _ _ _ _ _ (by simp [le32]) (by simp [pad64])
  rw [h4]
  -- step 5: startup segment bytes, at the startup offset
  have h5 : writeBytes
        (((le32 ctxs.length).map some ++
          ((le32 (if rehash then 1 else 0)).map some ++ List.replicate 4 (some 0))) ++
          ((pad64 ver).map some ++
            (List.replicate (startupSnapshotOffset ctxs.length - 76) (some 0) ++
              List.replicate (st.length + ro.length + sumLens ctxs) none)))
        (startupSnapshotOffset ctxs.length) (st.map some) =
      (((le32 ctxs.length).map some ++
        ((le32 (if rehash then 1 else 0)).map some ++ List.replicate 4 (some 0))) ++
        ((pad64 ver).map some ++
          List.replicate (startupSnapshotOffset ctxs.length - 76) (some 0))) ++
        (st.map some ++ List.replicate (ro.length + sumLens ctxs) none) := by
    rw [show st.length + ro.length + sumLens ctxs =
        st.length + (ro.length + sumLens ctxs) from by omega,
      List.replicate_add]
    have hre : (le32 ctxs.length).map some ++
          ((le32 (if rehash then 1 else 0)).map some ++ List.replicate 4 (some 0)) ++
          ((pad64 ver).map some ++
            (List.replicate (startupSnapshotOffset ctxs.length - 76) (some 0) ++
              (List.replicate st.length (none : Option Nat) ++
                List.replicate (ro.length + sumLens ctxs) none))) =
        (((le32 ctxs.length).map some ++
          ((le32 (if rehash then 1 else 0)).map some ++ List.replicate 4 (some 0))) ++
          ((pad64 ver).map some ++
            List.replicate (startupSnapshotOffset ctxs.length - 76) (some 0))) ++
          (List.replicate st.length (none : Option Nat) ++
            List.replicate (ro.length + sumLens ctxs) none) := by
      simp [List.append_assoc]
    rw [hre]
    exact writeBytes_at_chunk _ _ _ _ _ (by simp [le32, pad64]; omega) (by simp)
  rw [h5]
  -- step 6: read-only offset header field, at offset 76
  have h6 : writeBytes
        ((((le32 ctxs.length).map some ++
          ((le32 (if rehash then 1 else 0)).map some ++ List.replicate 4 (some 0))) ++
          ((pad64 ver).map some ++
            List.replicate (startupSnapshotOffset ctxs.length - 76) (some 0))) ++
          (st.map some ++ List.replicate (ro.length + sumLens ctxs) none)) 76
        ((le32 (startupSnapshotOffset ctxs.length + st.length)).map some) =
      (((le32 ctxs.length).map some ++
        ((le32 (if rehash then 1 else 0)).map some ++
          (List.replicate 4 (some 0) ++ (pad64 ver).map some))) ++
        ((le32 (startupSnapshotOffset ctxs.length + st.length)).map some ++
          (List.replicate (startupSnapshotOffset ctxs.length - 80) (some 0) ++
            (st.map some ++ List.replicate (ro.length + sumLens ctxs) none)))) := by
    rw [replicate_split (some 0) (startupSnapshotOffset ctxs.length - 76) 4 (by omega),
      show startupSnapshotOffset ctxs.length - 76 - 4 =
        startupSnapshotOffset ctxs.length - 80 from by omega]
    have hre : ((le32 ctxs.length).map some ++
          ((le32 (if rehash then 1 else 0)).map some ++ List.replicate 4 (some 0))) ++
          ((pad64 ver).map some ++
            (List.replicate 4 (some 0) ++
              List.replicate (startupSnapshotOffset ctxs.length - 80) (some 0))) ++
          (st.map some ++ List.replicate (ro.length + sumLens ctxs) none) =
        ((le32 ctxs.length).map some ++
          ((le32 (if rehash then 1 else 0)).map some ++
            (List.replicate 4 (some 0) ++ (pad64 ver).map some))) ++
          (List.replicate 4 (some 0) ++
            (List.replicate (startupSnapshotOffset ctxs.length - 80) (some 0) ++
              (st.map some ++ List.replicate (ro.length + sumLens ctxs) none))) := by
      simp [List.append_assoc]
    rw [hre]
    exact writeBytes_at_chunk _ _ _ _ _ (by simp [le32, pad64]) (by simp [le32])
  rw [h6]
  -- step 7: read-only segment bytes
  have h7 : writeBytes
        ((((le32 ctxs.length).map some ++
          ((le32 (if rehash then 1 else 0)).map some ++
            (List.replicate 4 (some 0) ++ (pad64 ver).map some))) ++
          ((le32 (startupSnapshotOffset ctxs.length + st.length)).map some ++
            (List.replicate (startupSnapshotOffset ctxs.length - 80) (some 0) ++
              (st.map some ++ List.replicate (ro.length + sumLens ctxs) none)))))
        (startupSnapshotOffset ctxs.length + st.length) (ro.map some) =
      ((((le32 ctxs.length).map some ++
        ((le32 (if rehash then 1 else 0)).map some ++
          (List.replicate 4 (some 0) ++ (pad64 ver).map some))) ++
        (le32 (startupSnapshotOffset ctxs.length + st.length)).map some) ++
        (List.replicate (startupSnapshotOffset ctxs.length - 80) (some 0) ++
          ((st.map some ++ ro.map some) ++ List.replicate (sumLens ctxs) none))) := by
    rw [List.replicate_add]
    have hre : ((le32 ctxs.length).map some ++
          ((le32 (if rehash then 1 else 0)).map some ++
            (List.replicate 4 (some 0) ++ (pad64 ver).map some))) ++
          ((le32 (startupSnapshotOffset ctxs.length + st.length)).map some ++
            (List.replicate (startupSnapshotOffset ctxs.length - 80) (some 0) ++
              (st.map some ++
                (List.replicate ro.length (none : Option Nat) ++
                  List.replicate (sumLens ctxs) none)))) =
        (((le32 ctxs.length).map some ++
          ((le32 (if rehash then 1 else 0)).map some ++
            (List.replicate 4 (some 0) ++ (pad64 ver).map some))) ++
          ((le32 (startupSnapshotOffset ctxs.length + st.length)).map some ++
            (List.replicate (startupSnapshotOffset ctxs.length - 80) (some 0) ++
              st.map some))) ++
          (List.replicate ro.length (none : Option Nat) ++
            List.replicate (sumLens ctxs) none) := by
      simp [List.append_assoc]
    rw [hre]
    have hwr := writeBytes_at_chunk
      (((le32 ctxs.length).map some ++
        ((le32 (if rehash then 1 else 0)).map some ++
          (List.replicate 4 (some 0) ++ (pad64 ver).map some))) ++
        ((le32 (startupSnapshotOffset ctxs.length + st.length)).map some ++
          (List.replicate (startupSnapshotOffset ctxs.length - 80) (some 0) ++
            st.map some)))
      (List.replicate ro.length (none : Option Nat))
      (List.replicate (sumLens ctxs) none) (ro.map some)
      (startupSnapshotOffset ctxs.length + st.length)
      (by simp [le32, pad64]; omega) (by simp)
    rw [hwr]
    simp [List.append_assoc]
  rw [h7]
  -- step 8: the context loop
  have hA8 : ((((le32 ctxs.length).map some ++
        ((le32 (if rehash then 1 else 0)).map some ++
          (List.replicate 4 (some 0) ++ (pad64 ver).map some))) ++
        (le32 (startupSnapshotOffset ctxs.length + st.length)).map some)).length =
      80 + 4 * 0 := by
    simp [le32, pad64]
  have hpay8 : startupSnapshotOffset ctxs.length + st.length + ro.length =
      ((((le32 ctxs.length).map some ++
        ((le32 (if rehash then 1 else 0)).map some ++
          (List.replicate 4 (some 0) ++ (pad64 ver).map some))) ++
        (le32 (startupSnapshotOffset ctxs.length + st.length)).map some)).length +
        (startupSnapshotOffset ctxs.length - 80) + (st.map some ++ ro.map some).length := by
    simp [le32, pad64]
    omega
  rw [hpay8, writeCtxs_eq ctxs 0 _ _ _ hA8 (by omega), ← hpay8]
  -- the checksummed bytes are exactly blobTail
  have hbytes : (((((le32 ctxs.length).map some ++
        ((le32 (if rehash then 1 else 0)).map some ++
          (List.replicate 4 (some 0) ++ (pad64 ver).map some))) ++
        (le32 (startupSnapshotOffset ctxs.length + st.length)).map some) ++
        ((ctxOffsetsBytes (startupSnapshotOffset ctxs.length + st.length + ro.length)
            ctxs).map some ++
          (List.replicate (startupSnapshotOffset ctxs.length - 80 - 4 * ctxs.length)
              (some 0) ++
            ((st.map some ++ ro.map some) ++ ctxs.flatten.map some)))).map
          (fun b : Option Nat => b.getD 0)) =
      (le32 ctxs.length ++
        (le32 (if rehash then 1 else 0) ++ List.replicate 4 0)) ++
        blobTail ver st ro ctxs := by
    rw [show startupSnapshotOffset ctxs.length - 80 - 4 * ctxs.length =
        startupSnapshotOffset ctxs.length - (80 + 4 * ctxs.length) from by omega]
    simp only [blobTail, List.map_append, map_some_getD, List.map_replicate,
      Option.getD_some, List.append_assoc]
  rw [hbytes]
  have hdrop : (((le32 ctxs.length ++
        (le32 (if rehash then 1 else 0) ++ List.replicate 4 0)) ++
        blobTail ver st ro ctxs).drop 12) = blobTail ver st ro ctxs := by
    rw [show (12 : Nat) =
        (le32 ctxs.length ++ (le32 (if rehash then 1 else 0) ++ List.replicate 4 0)).length
        from by simp [le32]]
    exact List.drop_left _ _
  rw [hdrop]
  -- step 9: the checksum header field, at offset 8
  have hre9 : ((((le32 ctxs.length).map some ++
        ((le32 (if rehash then 1 else 0)).map some ++
          (List.replicate 4 (some 0) ++ (pad64 ver).map some))) ++
        (le32 (startupSnapshotOffset ctxs.length + st.length)).map some) ++
        ((ctxOffsetsBytes (startupSnapshotOffset ctxs.length + st.length + ro.length)
            ctxs).map some ++
          (List.replicate (startupSnapshotOffset ctxs.length - 80 - 4 * ctxs.length)
              (some 0) ++
            ((st.map some ++ ro.map some) ++ ctxs.flatten.map some)))) =
      ((le32 ctxs.length).map some ++ (le32 (if rehash then 1 else 0)).map some) ++
        (List.replicate 4 (some 0) ++
          ((pad64 ver).map some ++
            ((le32 (startupSnapshotOffset ctxs.length + st.length)).map some ++
              ((ctxOffsetsBytes (startupSnapshotOffset ctxs.length + st.length + ro.length)
                  ctxs).map some ++
                (List.replicate (startupSnapshotOffset ctxs.length - 80 - 4 * ctxs.length)
                    (some 0) ++
                  (st.map some ++ (ro.map some ++ ctxs.flatten.map some))))))) := by
    simp [List.append_assoc]
  rw [hre9]
  rw [writeBytes_at_chunk _ _ _ _ _ (by simp [le32]) (by simp [le32])]
  -- both sides are now the same concatenation
  rw [show startupSnapshotOffset ctxs.length - 80 - 4 * ctxs.length =
      startupSnapshotOffset ctxs.length - (80 + 4 * ctxs.length) from by omega]
  simp only [assembledBlob, blobTail, List.map_append, List.map_replicate,
    List.append_assoc]

/-- The byte contents of the produced blob, in closed form. -/
theorem createSnapshotBlob_eq (ver st ro : List Nat) (ctxs : List (List Nat))
    (rehash : Bool) (cks : List Nat → Nat) :
    createSnapshotBlob ver st ro ctxs rehash cks =
      assembledBlob ver st ro ctxs rehash cks := by
  unfold createSnapshotBlob
  rw [createSnapshotBlobRaw_eq]
  exact map_some_getD _

/-! ### Reading header fields back out of the assembled blob -/

theorem rd32_at (pre suf : List Nat) (v : Nat) :
    rd32 (pre ++ (le32 v ++ suf)) pre.length = v % 4294967296 := by
  have e : ∀ j, j < 4 → (pre ++ (le32 v ++ suf)).getD (pre.length + j) 0 = (le32 v).getD j 0 := by
    intro j hj
    rw [List.getD_append_right _ _ _ _ (by omega),
      show pre.length + j - pre.length = j from by omega]
    exact List.getD_append _ _ _ j (by simp [le32]; omega)
  have e0 := e 0 (by omega)
  have e1 := e 1 (by omega)
  have e2 := e 2 (by omega)
  have e3 := e 3 (by omega)
  rw [Nat.add_zero] at e0
  unfold rd32
  rw [e0, e1, e2, e3]
  simp only [le32, List.getD_cons_zero, List.getD_cons_succ]
  omega

theorem rd32_at_zero (suf : List Nat) (v : Nat) :
    rd32 (le32 v ++ suf) 0 = v % 4294967296 := by
  have h := rd32_at [] suf v
  simpa using h

theorem ctxOffsetsBytes_read (cs : List (List Nat)) :
    ∀ (i off : Nat) (pre suf : List Nat), i < cs.length →
      rd32 (pre ++ (ctxOffsetsBytes off cs ++ suf)) (pre.length + 4 * i) =
        (off + sumLens (cs.take i)) % 4294967296 := by
  induction cs with
  | nil => intro i off pre suf h; simp at h
  | cons c rest ih =>
      intro i off pre suf h
      cases i with
      | zero =>
          have hsh : pre ++ (ctxOffsetsBytes off (c :: rest) ++ suf) =
              pre ++ (le32 off ++ (ctxOffsetsBytes (off + c.length) rest ++ suf)) := by
            simp [ctxOffsetsBytes, List.append_assoc]
          rw [hsh, show pre.length + 4 * 0 = pre.length from by omega, rd32_at]
          simp [sumLens]
      | succ j =>
          have hsh : pre ++ (ctxOffsetsBytes off (c :: rest) ++ suf) =
              (pre ++ le32 off) ++ (ctxOffsetsBytes (off + c.length) rest ++ suf) := by
            simp [ctxOffsetsBytes, List.append_assoc]
          rw [hsh,
            show pre.length + 4 * (j + 1) = (pre ++ le32 off).length + 4 * j from by
              simp [le32]; omega,
            ih j (off + c.length) (pre ++ le32 off) suf
              (by simp only [List.length_cons] at h; omega)]
          congr 1
          rw [List.take_succ_cons]
          simp only [sumLens, List.map_cons, List.sum_cons]
          omega

/-! ### Sums of segment lengths -/

theorem sumLens_take_add_drop (cs : List (List Nat)) (i : Nat) :
    sumLens (cs.take i) + sumLens (cs.drop i) = sumLens cs := by
  unfold sumLens
  rw [List.map_take, List.map_drop, ← List.sum_append, List.take_append_drop]

theorem sumLens_take_succ (cs : List (List Nat)) (i : Nat) (h : i < cs.length) :
    sumLens (cs.take (i + 1)) = sumLens (cs.take i) + (cs.getD i []).length := by
  unfold sumLens
  rw [List.map_take, List.map_take, List.sum_take_succ _ i (by simp; omega)]
  rw [List.getElem_map, List.getD_eq_getElem _ _ h]

theorem sumLens_drop_pos (cs : List (List Nat)) (i : Nat) (hi : i < cs.length)
    (hlast : 0 < (cs.getD (cs.length - 1) []).length) : 0 < sumLens (cs.drop i) := by
  have h1 := sumLens_take_add_drop (cs.drop i) (cs.length - 1 - i)
  rw [List.drop_drop] at h1
  rw [show i + (cs.length - 1 - i) = cs.length - 1 from by omega] at h1
  rw [List.drop_eq_getElem_cons (show cs.length - 1 < cs.length from by omega)] at h1
  rw [show cs.length - 1 + 1 = cs.length from by omega, List.drop_length] at h1
  rw [← List.getD_eq_getElem cs [] (show cs.length - 1 < cs.length from by omega)] at h1
  simp only [sumLens, List.map_cons, List.sum_cons, List.map_nil, List.sum_nil] at h1 ⊢
  omega

theorem flatten_drop (cs : List (List Nat)) :
    ∀ i : Nat, cs.flatten.drop (sumLens (cs.take i)) = (cs.drop i).flatten := by
  induction cs with
  | nil => intro i; simp [sumLens]
  | cons c rest ih =>
      intro i
      cases i with
      | zero => simp [sumLens]
      | succ j =>
          simp only [List.take_succ_cons, List.flatten_cons, List.drop_succ_cons]
          rw [show sumLens (c :: rest.take j) = c.length + sumLens (rest.take j) from by
            simp [sumLens]]
          rw [List.drop_append_eq_append_drop, List.drop_eq_nil_of_le (by omega),
            show c.length + sumLens (rest.take j) - c.length = sumLens (rest.take j) from by
              omega]
          simp [ih j]

/-! ### Prefix-length drop and take -/

theorem drop_of_prefix_length (H X : List Nat) (n : Nat) (hn : n = H.length) :
    (H ++ X).drop n = X := by
  subst hn
  exact List.drop_left _ _

theorem take_of_prefix_length (H X : List Nat) (n : Nat) (hn : n = H.length) :
    (H ++ X).take n = H := by
  subst hn
  exact List.take_left _ _

theorem drop_of_prefix_length_add (H X : List Nat) (n m : Nat) (hn : n = H.length + m) :
    (H ++ X).drop n = X.drop m := by
  subst hn
  rw [List.drop_append_eq_append_drop, List.drop_eq_nil_of_le (by omega),
    show H.length + m - H.length = m from by omega]
  simp

/-! ### Facts about the produced blob -/

theorem createSnapshotBlob_length (ver st ro : List Nat) (ctxs : List (List Nat))
    (rehash : Bool) (cks : List Nat → Nat) :
    (createSnapshotBlob ver st ro ctxs rehash cks).length =
      startupSnapshotOffset ctxs.length + st.length + ro.length + sumLens ctxs := by
  have hS := startupSnapshotOffset_ge ctxs.length
  rw [createSnapshotBlob_eq]
  simp [assembledBlob, blobTail, length_le32, length_pad64, length_ctxOffsetsBytes,
    List.length_flatten, sumLens]
  omega

theorem createSnapshotBlob_rd32_zero (ver st ro : List Nat) (ctxs : List (List Nat))
    (rehash : Bool) (cks : List Nat → Nat) :
    rd32 (createSnapshotBlob ver st ro ctxs rehash cks) 0 = ctxs.length % 4294967296 := by
  rw [createSnapshotBlob_eq,
    show assembledBlob ver st ro ctxs rehash cks =
      le32 ctxs.length ++ (le32 (if rehash then 1 else 0) ++
        (le32 (cks (blobTail ver st ro ctxs)) ++ blobTail ver st ro ctxs)) from by
      simp only [assembledBlob, List.append_assoc]]
  exact rd32_at_zero _ _

theorem createSnapshotBlob_rd32_four (ver st ro : List Nat) (ctxs : List (List Nat))
    (rehash : Bool) (cks : List Nat → Nat) :
    rd32 (createSnapshotBlob ver st ro ctxs rehash cks) 4 = (if rehash then 1 else 0) := by
  rw [createSnapshotBlob_eq,
    show assembledBlob ver st ro ctxs rehash cks =
      le32 ctxs.length ++ (le32 (if rehash then 1 else 0) ++
        (le32 (cks (blobTail ver st ro ctxs)) ++ blobTail ver st ro ctxs)) from by
      simp only [assembledBlob, List.append_assoc]]
  have h := rd32_at (le32 ctxs.length)
    (le32 (cks (blobTail ver st ro ctxs)) ++ blobTail ver st ro ctxs)
    (if rehash then 1 else 0)
  rw [length_le32] at h
  rw [h]
  cases rehash <;> rfl

theorem createSnapshotBlob_rd32_eight (ver st ro : List Nat) (ctxs : List (List Nat))
    (rehash : Bool) (cks : List Nat → Nat) :
    rd32 (createSnapshotBlob ver st ro ctxs rehash cks) 8 =
      cks (blobTail ver st ro ctxs) % 4294967296 := by
  rw [createSnapshotBlob_eq,
    show assembledBlob ver st ro ctxs rehash cks =
      (le32 ctxs.length ++ le32 (if rehash then 1 else 0)) ++
        (le32 (cks (blobTail ver st ro ctxs)) ++ blobTail ver st ro ctxs) from by
      simp only [assembledBlob, List.append_assoc]]
  have h := rd32_at (le32 ctxs.length ++ le32 (if rehash then 1 else 0))
    (blobTail ver st ro ctxs) (cks (blobTail ver st ro ctxs))
  have hl : (le32 ctxs.length ++ le32 (if rehash then 1 else 0)).length = 8 := by
    simp [length_le32]
  rw [hl] at h
  exact h

theorem createSnapshotBlob_rd32_ro (ver st ro : List Nat) (ctxs : List (List Nat))
    (rehash : Bool) (cks : List Nat → Nat) :
    rd32 (createSnapshotBlob ver st ro ctxs rehash cks) 76 =
      (startupSnapshotOffset ctxs.length + st.length) % 4294967296 := by
  rw [createSnapshotBlob_eq,
    show assembledBlob ver st ro ctxs rehash cks =
      (le32 ctxs.length ++ (le32 (if rehash then 1 else 0) ++
        (le32 (cks (blobTail ver st ro ctxs)) ++ pad64 ver))) ++
        (le32 (startupSnapshotOffset ctxs.length + st.length) ++
          (ctxOffsetsBytes (startupSnapshotOffset ctxs.length + st.length + ro.length) ctxs ++
            (List.replicate (startupSnapshotOffset ctxs.length - (80 + 4 * ctxs.length)) 0 ++
              (st ++ (ro ++ ctxs.flatten))))) from by
      simp only [assembledBlob, blobTail, List.append_assoc]]
  have h := rd32_at
    (le32 ctxs.length ++ (le32 (if rehash then 1 else 0) ++
      (le32 (cks (blobTail ver st ro ctxs)) ++ pad64 ver)))
    (ctxOffsetsBytes (startupSnapshotOffset ctxs.length + st.length + ro.length) ctxs ++
      (List.replicate (startupSnapshotOffset ctxs.length - (80 + 4 * ctxs.length)) 0 ++
        (st ++ (ro ++ ctxs.flatten))))
    (startupSnapshotOffset ctxs.length + st.length)
  have hl : (le32 ctxs.length ++ (le32 (if rehash then 1 else 0) ++
      (le32 (cks (blobTail ver st ro ctxs)) ++ pad64 ver))).length = 76 := by
    simp [length_le32, length_pad64]
  rw [hl] at h
  exact h

theorem createSnapshotBlob_rd32_ctx (ver st ro : List Nat) (ctxs : List (List Nat))
    (rehash : Bool) (cks : List Nat → Nat) (i : Nat) (hi : i < ctxs.length) :
    rd32 (createSnapshotBlob ver st ro ctxs rehash cks) (80 + 4 * i) =
      (startupSnapshotOffset ctxs.length + st.length + ro.length +
        sumLens (ctxs.take i)) % 4294967296 := by
  rw [createSnapshotBlob_eq,
    show assembledBlob ver st ro ctxs rehash cks =
      (le32 ctxs.length ++ (le32 (if rehash then 1 else 0) ++
        (le32 (cks (blobTail ver st ro ctxs)) ++ (pad64 ver ++
          le32 (startupSnapshotOffset ctxs.length + st.length))))) ++
        (ctxOffsetsBytes (startupSnapshotOffset ctxs.length + st.length + ro.length) ctxs ++
          (List.replicate (startupSnapshotOffset ctxs.length - (80 + 4 * ctxs.length)) 0 ++
            (st ++ (ro ++ ctxs.flatten)))) from by
      simp only [assembledBlob, blobTail, List.append_assoc]]
  have h := ctxOffsetsBytes_read ctxs i
    (startupSnapshotOffset ctxs.length + st.length + ro.length)
    (le32 ctxs.length ++ (le32 (if rehash then 1 else 0) ++
      (le32 (cks (blobTail ver st ro ctxs)) ++ (pad64 ver ++
        le32 (startupSnapshotOffset ctxs.length + st.length)))))
    (List.replicate (startupSnapshotOffset ctxs.length - (80 + 4 * ctxs.length)) 0 ++
      (st ++ (ro ++ ctxs.flatten))) hi
  have hl : (le32 ctxs.length ++ (le32 (if rehash then 1 else 0) ++
      (le32 (cks (blobTail ver st ro ctxs)) ++ (pad64 ver ++
        le32 (startupSnapshotOffset ctxs.length + st.length))))).length = 80 := by
    simp [length_le32, length_pad64]
  rw [hl] at h
  exact h

theorem createSnapshotBlob_drop_startup (ver st ro : List Nat) (ctxs : List (List Nat))
    (rehash : Bool) (cks : List Nat → Nat) :
    (createSnapshotBlob ver st ro ctxs rehash cks).drop (startupSnapshotOffset ctxs.length) =
      st ++ (ro ++ ctxs.flatten) := by
  have hS := startupSnapshotOffset_ge ctxs.length
  rw [createSnapshotBlob_eq,
    show assembledBlob ver st ro ctxs rehash cks =
      (le32 ctxs.length ++ (le32 (if rehash then 1 else 0) ++
        (le32 (cks (blobTail ver st ro ctxs)) ++ (pad64 ver ++
          (le32 (startupSnapshotOffset ctxs.length + st.length) ++
            (ctxOffsetsBytes (startupSnapshotOffset ctxs.length + st.length + ro.length)
                ctxs ++
              List.replicate (startupSnapshotOffset ctxs.length - (80 + 4 * ctxs.length))
                0)))))) ++
        (st ++ (ro ++ ctxs.flatten)) from by
      simp only [assembledBlob, blobTail, List.append_assoc]]
  exact drop_of_prefix_length _ _ _
    (by simp [length_le32, length_pad64, length_ctxOffsetsBytes]; omega)

theorem createSnapshotBlob_drop_ro (ver st ro : List Nat) (ctxs : List (List Nat))
    (rehash : Bool) (cks : List Nat → Nat) :
    (createSnapshotBlob ver st ro ctxs rehash cks).drop
        (startupSnapshotOffset ctxs.length + st.length) =
      ro ++ ctxs.flatten := by
  have hS := startupSnapshotOffset_ge ctxs.length
  rw [createSnapshotBlob_eq,
    show assembledBlob ver st ro ctxs rehash cks =
      (le32 ctxs.length ++ (le32 (if rehash then 1 else 0) ++
        (le32 (cks (blobTail ver st ro ctxs)) ++ (pad64 ver ++
          (le32 (startupSnapshotOffset ctxs.length + st.length) ++
            (ctxOffsetsBytes (startupSnapshotOffset ctxs.length + st.length + ro.length)
                ctxs ++
              (List.replicate (startupSnapshotOffset ctxs.length - (80 + 4 * ctxs.length))
                0 ++ st))))))) ++
        (ro ++ ctxs.flatten) from by
      simp only [assembledBlob, blobTail, List.append_assoc]]
  exact drop_of_prefix_length _ _ _
    (by simp [length_le32, length_pad64, length_ctxOffsetsBytes]; omega)

theorem createSnapshotBlob_drop_ctx (ver st ro : List Nat) (ctxs : List (List Nat))
    (rehash : Bool) (cks : List Nat → Nat) (i : Nat) :
    (createSnapshotBlob ver st ro ctxs rehash cks).drop
        (startupSnapshotOffset ctxs.length + st.length + ro.length +
          sumLens (ctxs.take i)) =
      (ctxs.drop i).flatten := by
  have hS := startupSnapshotOffset_ge ctxs.length
  rw [createSnapshotBlob_eq,
    show assembledBlob ver st ro ctxs rehash cks =
      (le32 ctxs.length ++ (le32 (if rehash then 1 else 0) ++
        (le32 (cks (blobTail ver st ro ctxs)) ++ (pad64 ver ++
          (le32 (startupSnapshotOffset ctxs.length + st.length) ++
            (ctxOffsetsBytes (startupSnapshotOffset ctxs.length + st.length + ro.length)
                ctxs ++
              (List.replicate (startupSnapshotOffset ctxs.length - (80 + 4 * ctxs.length))
                0 ++ (st ++ ro)))))))) ++
        ctxs.flatten from by
      simp only [assembledBlob, blobTail, List.append_assoc]]
  rw [drop_of_prefix_length_add _ _ _ (sumLens (ctxs.take i))
    (by simp [length_le32, length_pad64, length_ctxOffsetsBytes]; omega)]
  exact flatten_drop ctxs i

/-! ### Extraction from a produced blob -/

theorem extractNumContexts_of_created (ver st ro : List Nat) (ctxs : List (List Nat))
    (rehash : Bool) (cks : List Nat → Nat)
    (hk : ctxs.length < 4294967296) :
    extractNumContexts (createSnapshotBlob ver st ro ctxs rehash cks) = some ctxs.length := by
  have hS := startupSnapshotOffset_ge ctxs.length
  have hlen := createSnapshotBlob_length ver st ro ctxs rehash cks
  unfold extractNumContexts
  rw [if_pos (by rw [hlen]; omega), createSnapshotBlob_rd32_zero,
    Nat.mod_eq_of_lt hk]

theorem extractStartupData_of_created (ver st ro : List Nat) (ctxs : List (List Nat))
    (rehash : Bool) (cks : List Nat → Nat)
    (hst : 0 < st.length)
    (hrest : 0 < ro.length + sumLens ctxs)
    (htot : startupSnapshotOffset ctxs.length + st.length + ro.length + sumLens ctxs <
      4294967296) :
    extractStartupData (createSnapshotBlob ver st ro ctxs rehash cks) =
      some (startupSnapshotOffset ctxs.length, st.length) := by
  have hS := startupSnapshotOffset_ge ctxs.length
  have hlen := createSnapshotBlob_length ver st ro ctxs rehash cks
  unfold extractStartupData
  rw [extractNumContexts_of_created ver st ro ctxs rehash cks (by omega), Option.some_bind]
  unfold extractData
  rw [createSnapshotBlob_rd32_ro, Nat.mod_eq_of_lt (by omega)]
  rw [if_pos ⟨by omega, by rw [hlen]; omega⟩]
  rw [show startupSnapshotOffset ctxs.length + st.length - startupSnapshotOffset ctxs.length =
    st.length from by omega]

theorem extractReadOnlyData_of_created (ver st ro : List Nat) (ctxs : List (List Nat))
    (rehash : Bool) (cks : List Nat → Nat)
    (hro : 0 < ro.length)
    (hk : 0 < ctxs.length)
    (hsum : 0 < sumLens ctxs)
    (htot : startupSnapshotOffset ctxs.length + st.length + ro.length + sumLens ctxs <
      4294967296) :
    extractReadOnlyData (createSnapshotBlob ver st ro ctxs rehash cks) =
      some (startupSnapshotOffset ctxs.length + st.length, ro.length) := by
  have hS := startupSnapshotOffset_ge ctxs.length
  have hlen := createSnapshotBlob_length ver st ro ctxs rehash cks
  have h0 : rd32 (createSnapshotBlob ver st ro ctxs rehash cks) 80 =
      startupSnapshotOffset ctxs.length + st.length + ro.length := by
    have h := createSnapshotBlob_rd32_ctx ver st ro ctxs rehash cks 0 hk
    rw [show 80 + 4 * 0 = 80 from rfl] at h
    rw [h, List.take_zero]
    rw [show sumLens [] = 0 from rfl, Nat.add_zero]
    exact Nat.mod_eq_of_lt (by omega)
  unfold extractReadOnlyData extractData
  rw [createSnapshotBlob_rd32_ro, Nat.mod_eq_of_lt (by omega), h0]
  rw [if_pos ⟨by omega, by rw [hlen]; omega⟩]
  rw [show startupSnapshotOffset ctxs.length + st.length + ro.length -
    (startupSnapshotOffset ctxs.length + st.length) = ro.length from by omega]

theorem extractContextData_of_created (ver st ro : List Nat) (ctxs : List (List Nat))
    (rehash : Bool) (cks : List Nat → Nat) (i : Nat) (hi : i < ctxs.length)
    (hlast : 0 < (ctxs.getD (ctxs.length - 1) []).length)
    (htot : startupSnapshotOffset ctxs.length + st.length + ro.length + sumLens ctxs <
      4294967296) :
    extractContextData (createSnapshotBlob ver st ro ctxs rehash cks) i =
      some (startupSnapshotOffset ctxs.length + st.length + ro.length +
          sumLens (ctxs.take i),
        (ctxs.getD i []).length) := by
  have hS := startupSnapshotOffset_ge ctxs.length
  have hlen := createSnapshotBlob_length ver st ro ctxs rehash cks
  have htd := sumLens_take_add_drop ctxs i
  have hdpos := sumLens_drop_pos ctxs i hi hlast
  have hoffi : extractContextOffset (createSnapshotBlob ver st ro ctxs rehash cks) i =
      some (startupSnapshotOffset ctxs.length + st.length + ro.length +
        sumLens (ctxs.take i)) := by
    unfold extractContextOffset
    rw [createSnapshotBlob_rd32_ctx ver st ro ctxs rehash cks i hi,
      Nat.mod_eq_of_lt (by omega), if_pos (by rw [hlen]; omega)]
  unfold extractContextData
  rw [extractNumContexts_of_created ver st ro ctxs rehash cks (by omega), Option.some_bind,
    if_pos hi, hoffi, Option.some_bind]
  by_cases hil : i = ctxs.length - 1
  · rw [if_pos hil, Option.some_bind]
    have hdropi : ctxs.drop i = [ctxs.getD i []] := by
      rw [List.drop_eq_getElem_cons hi, show i + 1 = ctxs.length from by omega,
        List.drop_length, List.getD_eq_getElem ctxs [] hi]
    have hsd : sumLens (ctxs.drop i) = (ctxs.getD i []).length := by
      rw [hdropi]
      simp [sumLens]
    rw [hlen]
    congr 1
    rw [Prod.mk.injEq]
    refine ⟨rfl, ?_⟩
    omega
  · rw [if_neg hil]
    have hi1 : i + 1 < ctxs.length := by omega
    have hoffi1 : extractContextOffset (createSnapshotBlob ver st ro ctxs rehash cks)
        (i + 1) = some (startupSnapshotOffset ctxs.length + st.length + ro.length +
          sumLens (ctxs.take (i + 1))) := by
      have htd1 := sumLens_take_add_drop ctxs (i + 1)
      have hdpos1 := sumLens_drop_pos ctxs (i + 1) hi1 hlast
      unfold extractContextOffset
      rw [createSnapshotBlob_rd32_ctx ver st ro ctxs rehash cks (i + 1) hi1,
        Nat.mod_eq_of_lt (by omega), if_pos (by rw [hlen]; omega)]
    rw [hoffi1, Option.some_bind]
    have htd1 := sumLens_take_add_drop ctxs (i + 1)
    have hdpos1 := sumLens_drop_pos ctxs (i + 1) hi1 hlast
    rw [if_pos (by rw [hlen]; omega), Option.some_bind]
    have hsucc := sumLens_take_succ ctxs i hi
    congr 1
    rw [Prod.mk.injEq]
    refine ⟨rfl, ?_⟩
    omega

theorem viewBytes_mk (d : List Nat) (a b : Nat) :
    viewBytes d (a, b) = (d.drop a).take b := rfl

/-! ### Claim C1 -/

/-- C1 (as stated, refuted): the round trip does not hold for every sequence of
segments.  With an empty startup segment the assembled blob's startup region is
empty, and ExtractStartupData hits the fatal `CHECK_LT(start_offset, end_offset)`
in ExtractData instead of returning the (empty) input segment. -/
theorem c1_counterexample :
    extractStartupData (createSnapshotBlob [] [] [3] [[4]] false (fun _ => 0)) = none ∧
    (extractStartupData (createSnapshotBlob [] [] [3] [[4]] false (fun _ => 0))).map
        (viewBytes (createSnapshotBlob [] [] [3] [[4]] false (fun _ => 0))) ≠
      some [] := by
  constructor
  · decide
  · decide

/-- C1 (amended): for every sequence of segments with at least one context, in
which the startup, read-only and final context segments are nonempty and the
blob fits in a `uint32`, extracting each segment from the blob produced by
CreateSnapshotBlob returns bytes identical to the input segment it came from,
including each context by index (intermediate context segments may be empty). -/
theorem c1_roundtrip (ver st ro : List Nat) (ctxs : List (List Nat)) (rehash : Bool)
    (cks : List Nat → Nat) (d : List Nat)
    (hd : d = createSnapshotBlob ver st ro ctxs rehash cks)
    (hst : 0 < st.length) (hro : 0 < ro.length) (hk : 0 < ctxs.length)
    (hlast : 0 < (ctxs.getD (ctxs.length - 1) []).length)
    (htot : startupSnapshotOffset ctxs.length + st.length + ro.length + sumLens ctxs <
      4294967296) :
    (extractStartupData d).map (viewBytes d) = some st ∧
    (extractReadOnlyData d).map (viewBytes d) = some ro ∧
    ∀ i, i < ctxs.length →
      (extractContextData d i).map (viewBytes d) = some (ctxs.getD i []) := by
  subst hd
  have hS := startupSnapshotOffset_ge ctxs.length
  have hsum : 0 < sumLens ctxs := by
    have h := sumLens_drop_pos ctxs 0 hk hlast
    simpa using h
  refine ⟨?_, ?_, ?_⟩
  · rw [extractStartupData_of_created ver st ro ctxs rehash cks hst (by omega) htot,
      Option.map_some', viewBytes_mk, createSnapshotBlob_drop_startup]
    exact congrArg some (take_of_prefix_length _ _ _ rfl)
  · rw [extractReadOnlyData_of_created ver st ro ctxs rehash cks hro hk hsum htot,
      Option.map_some', viewBytes_mk, createSnapshotBlob_drop_ro]
    exact congrArg some (take_of_prefix_length _ _ _ rfl)
  · intro i hi
    rw [extractContextData_of_created ver st ro ctxs rehash cks i hi hlast htot,
      Option.map_some', viewBytes_mk, createSnapshotBlob_drop_ctx]
    rw [List.drop_eq_getElem_cons hi, List.flatten_cons,
      List.getD_eq_getElem ctxs [] hi]
    exact congrArg some (take_of_prefix_length _ _ _ rfl)

/-- Witness for C1: the amended round trip evaluated on a concrete blob with two
contexts (the first context intentionally longer than the second). -/
theorem c1_roundtrip_witness :
    (extractStartupData (createSnapshotBlob [56] [1, 2] [3] [[4, 5, 6], [7]] true
          (fun l => l.length))).map
        (viewBytes (createSnapshotBlob [56] [1, 2] [3] [[4, 5, 6], [7]] true
          (fun l => l.length))) = some [1, 2] ∧
    (extractReadOnlyData (createSnapshotBlob [56] [1, 2] [3] [[4, 5, 6], [7]] true
          (fun l => l.length))).map
        (viewBytes (createSnapshotBlob [56] [1, 2] [3] [[4, 5, 6], [7]] true
          (fun l => l.length))) = some [3] ∧
    (extractContextData (createSnapshotBlob [56] [1, 2] [3] [[4, 5, 6], [7]] true
          (fun l => l.length)) 1).map
        (viewBytes (createSnapshotBlob [56] [1, 2] [3] [[4, 5, 6], [7]] true
          (fun l => l.length))) = some [7] := by
  have h := c1_roundtrip [56] [1, 2] [3] [[4, 5, 6], [7]] true (fun l => l.length) _
    rfl (by decide) (by decide) (by decide) (by decide) (by decide)
  exact ⟨h.1, h.2.1, h.2.2 1 (by decide)⟩

/-! ### Claim C2 -/

theorem strncmpIsEqual_self (a : List Nat) (n : Nat) : strncmpIsEqual a a n = true := by
  induction n generalizing a with
  | zero => rfl
  | succ m ih =>
      unfold strncmpIsEqual
      rw [if_neg (by simp)]
      by_cases h : a.headD 0 = 0
      · rw [if_pos h]
      · rw [if_neg h]
        exact ih a.tail

/-- C2 (as stated, refuted): the comparison is strncmp, which stops at the first
null byte, so a blob whose version field agrees with the running build's version
up to the terminating null but differs afterwards passes CheckVersion even
though the two 64-byte regions differ. -/
theorem c2_counterexample :
    checkVersion [57] (mkBlob 1 1 0 [57, 0, 1] 0 [0] [0]) = VersionCheckResult.ok ∧
    ((mkBlob 1 1 0 [57, 0, 1] 0 [0] [0]).drop 12).take 64 ≠ pad64 [57] := by
  constructor
  · decide
  · decide

/-- C2 (amended): CheckVersion compares the embedded 64-byte field with the
running build's null-padded version string using C `strncmp` limited to 64
bytes, which stops at the first null byte; identical 64-byte regions always
pass, and a strncmp mismatch (in particular any difference at or before the
first null, including truncation) aborts with a diagnostic carrying both
version strings, the blob size and the context count.  Differences confined to
bytes after matching null terminators are not detected. -/
theorem c2_version_check (runningVersion d : List Nat) (h76 : 76 < d.length) :
    (((d.drop 12).take 64 = pad64 runningVersion) →
      checkVersion runningVersion d = VersionCheckResult.ok) ∧
    (strncmpIsEqual (pad64 runningVersion) ((d.drop 12).take 64) 64 = false →
      checkVersion runningVersion d =
        VersionCheckResult.mismatch (pad64 runningVersion) ((d.drop 12).take 64)
          d.length (rd32 d 0)) := by
  constructor
  · intro heq
    unfold checkVersion
    rw [if_pos h76, heq, if_pos (strncmpIsEqual_self _ _)]
  · intro hne
    unfold checkVersion
    rw [if_pos h76, hne]
    simp

/-- Witness for C2: a blob whose version field is byte-identical to the running
build's version passes the check. -/
theorem c2_version_check_witness :
    checkVersion [57] (mkBlob 1 1 0 [57] 0 [0] [0]) = VersionCheckResult.ok :=
  (c2_version_check [57] (mkBlob 1 1 0 [57] 0 [0] [0]) (by decide)).1 (by decide)

/-! ### Claim C3 -/

theorem checksummedContent_of_created (ver st ro : List Nat) (ctxs : List (List Nat))
    (rehash : Bool) (cks : List Nat → Nat) :
    checksummedContent (createSnapshotBlob ver st ro ctxs rehash cks) =
      blobTail ver st ro ctxs := by
  unfold checksummedContent
  rw [createSnapshotBlob_eq,
    show assembledBlob ver st ro ctxs rehash cks =
      (le32 ctxs.length ++ (le32 (if rehash then 1 else 0) ++
        le32 (cks (blobTail ver st ro ctxs)))) ++ blobTail ver st ro ctxs from by
      simp only [assembledBlob, List.append_assoc]]
  exact drop_of_prefix_length _ _ _ (by simp [length_le32])

/-- C3 (confirmed): the checksummed region is exactly the bytes from offset 12
(the version-string field) to the end of the blob, both as recomputed by
VerifyChecksum and as written by CreateSnapshotBlob; consequently the result of
VerifyChecksum is unchanged by any modification confined to bytes 0-7 (the
context-count and rehashability fields), i.e. to the first 12 bytes outside the
checksum field itself. -/
theorem c3_checksum_region (cks : List Nat → Nat) (ver st ro : List Nat)
    (ctxs : List (List Nat)) (rehash : Bool) (d d' : List Nat) :
    checksummedContent d = d.drop 12 ∧
    rd32 (createSnapshotBlob ver st ro ctxs rehash cks) 8 =
      cks (checksummedContent (createSnapshotBlob ver st ro ctxs rehash cks)) %
        4294967296 ∧
    (d.length = d'.length → (∀ i, 8 ≤ i → d.getD i 0 = d'.getD i 0) →
      verifyChecksum cks d = verifyChecksum cks d') := by
  refine ⟨rfl, ?_, ?_⟩
  · rw [createSnapshotBlob_rd32_eight, checksummedContent_of_created]
  · intro hl hag
    have hrd : rd32 d 8 = rd32 d' 8 := by
      unfold rd32
      rw [hag 8 (by omega), hag (8 + 1) (by omega), hag (8 + 2) (by omega),
        hag (8 + 3) (by omega)]
    have hdrop : d.drop 12 = d'.drop 12 := by
      refine List.ext_getElem (by simp [hl]) ?_
      intro n h1 h2
      have hn : 12 + n < d.length := by
        simp only [List.length_drop] at h1
        omega
      have hn' : 12 + n < d'.length := by omega
      have e := hag (12 + n) (by omega)
      rw [List.getD_eq_getElem d 0 hn, List.getD_eq_getElem d' 0 hn'] at e
      rw [List.getElem_drop, List.getElem_drop]
      exact e
    unfold verifyChecksum checksummedContent
    rw [hrd, hdrop]

/-- Witness for C3: two concrete blobs differing only in their first eight bytes
verify identically. -/
theorem c3_checksum_region_witness :
    verifyChecksum (fun l => l.sum) [1, 0, 0, 0, 1, 0, 0, 0, 2, 0, 0, 0] =
      verifyChecksum (fun l => l.sum) [9, 9, 9, 9, 8, 8, 8, 8, 2, 0, 0, 0] := by
  refine (c3_checksum_region (fun l => l.sum) [] [] [] [] false
    [1, 0, 0, 0, 1, 0, 0, 0, 2, 0, 0, 0] [9, 9, 9, 9, 8, 8, 8, 8, 2, 0, 0, 0]).2.2
    (by decide) ?_
  intro i hi
  rcases Nat.lt_or_ge i 12 with h | h
  · interval_cases i <;> rfl
  · rw [List.getD_eq_default _ _ (by simp; omega), List.getD_eq_default _ _ (by simp; omega)]

/-! ### Claim C4 -/

/-- C4 (as stated, refuted): a blob produced from an empty startup segment has
its stored read-only offset equal to the startup offset, so the recorded
offsets are not strictly increasing for every produced blob. -/
theorem c4_counterexample :
    ¬ (startupSnapshotOffset
          (rd32 (createSnapshotBlob [] [] [1] [[2]] false (fun _ => 0)) 0) <
        rd32 (createSnapshotBlob [] [] [1] [[2]] false (fun _ => 0)) 76) := by
  decide

/-- C4 (amended): for every blob produced by CreateSnapshotBlob from nonempty
startup, read-only and context segments (with at least one context, total
length in uint32 range), the recorded offsets are strictly increasing —
startup offset < stored read-only offset < ContextOffset[0], consecutive
context offsets increase, and every stored offset is below the blob's total
length. -/
theorem c4_monotonic_offsets (ver st ro : List Nat) (ctxs : List (List Nat))
    (rehash : Bool) (cks : List Nat → Nat) (d : List Nat)
    (hd : d = createSnapshotBlob ver st ro ctxs rehash cks)
    (hst : 0 < st.length) (hro : 0 < ro.length) (hk : 0 < ctxs.length)
    (hall : ∀ c ∈ ctxs, c ≠ ([] : List Nat))
    (htot : startupSnapshotOffset ctxs.length + st.length + ro.length + sumLens ctxs <
      4294967296) :
    startupSnapshotOffset ctxs.length < rd32 d 76 ∧
    rd32 d 76 < rd32 d (80 + 4 * 0) ∧
    (∀ i, i + 1 < ctxs.length → rd32 d (80 + 4 * i) < rd32 d (80 + 4 * (i + 1))) ∧
    (∀ i, i < ctxs.length → rd32 d (80 + 4 * i) < d.length) ∧
    rd32 d 76 < d.length := by
  subst hd
  have hS := startupSnapshotOffset_ge ctxs.length
  have hlen := createSnapshotBlob_length ver st ro ctxs rehash cks
  have hlast : 0 < (ctxs.getD (ctxs.length - 1) []).length := by
    rw [List.getD_eq_getElem ctxs [] (by omega)]
    rw [List.length_pos]
    exact hall _ (List.getElem_mem _)
  have hmem : ∀ i, i < ctxs.length → 0 < (ctxs.getD i []).length := by
    intro i hi
    rw [List.getD_eq_getElem ctxs [] hi, List.length_pos]
    exact hall _ (List.getElem_mem _)
  have hro76 : rd32 (createSnapshotBlob ver st ro ctxs rehash cks) 76 =
      startupSnapshotOffset ctxs.length + st.length := by
    rw [createSnapshotBlob_rd32_ro]
    exact Nat.mod_eq_of_lt (by omega)
  have hctx : ∀ i, i < ctxs.length →
      rd32 (createSnapshotBlob ver st ro ctxs rehash cks) (80 + 4 * i) =
        startupSnapshotOffset ctxs.length + st.length + ro.length +
          sumLens (ctxs.take i) := by
    intro i hi
    rw [createSnapshotBlob_rd32_ctx ver st ro ctxs rehash cks i hi]
    have := sumLens_take_add_drop ctxs i
    exact Nat.mod_eq_of_lt (by omega)
  refine ⟨?_, ?_, ?_, ?_, ?_⟩
  · rw [hro76]; omega
  · rw [hro76, hctx 0 hk, List.take_zero, show sumLens [] = 0 from rfl]
    omega
  · intro i hi1
    rw [hctx i (by omega), hctx (i + 1) hi1, sumLens_take_succ ctxs i (by omega)]
    have := hmem i (by omega)
    omega
  · intro i hi
    rw [hctx i hi, hlen]
    have := sumLens_drop_pos ctxs i hi hlast
    have := sumLens_take_add_drop ctxs i
    omega
  · rw [hro76, hlen]
    omega

/-- Witness for C4: the monotonic-offset chain evaluated on a concrete
two-context blob. -/
theorem c4_monotonic_offsets_witness :
    startupSnapshotOffset 2 <
      rd32 (createSnapshotBlob [] [1] [2] [[3], [4]] false (fun _ => 0)) 76 ∧
    rd32 (createSnapshotBlob [] [1] [2] [[3], [4]] false (fun _ => 0)) 76 <
      rd32 (createSnapshotBlob [] [1] [2] [[3], [4]] false (fun _ => 0)) (80 + 4 * 0) ∧
    rd32 (createSnapshotBlob [] [1] [2] [[3], [4]] false (fun _ => 0)) (80 + 4 * 0) <
      rd32 (createSnapshotBlob [] [1] [2] [[3], [4]] false (fun _ => 0)) (80 + 4 * (0 + 1)) ∧
    rd32 (createSnapshotBlob [] [1] [2] [[3], [4]] false (fun _ => 0)) (80 + 4 * 1) <
      (createSnapshotBlob [] [1] [2] [[3], [4]] false (fun _ => 0)).length ∧
    rd32 (createSnapshotBlob [] [1] [2] [[3], [4]] false (fun _ => 0)) 76 <
      (createSnapshotBlob [] [1] [2] [[3], [4]] false (fun _ => 0)).length := by
  have h := c4_monotonic_offsets [] [1] [2] [[3], [4]] false (fun _ => 0) _ rfl
    (by decide) (by decide) (by decide) (by decide) (by decide)
  exact ⟨h.1, h.2.1, h.2.2.1 0 (by decide), h.2.2.2.1 1 (by decide), h.2.2.2.2⟩

/-! ### Claim C5 -/

/-- C5 (as stated, refuted): ExtractContextData never compares consecutive
context offsets.  In a blob whose ContextOffset[0] = 90 and
ContextOffset[1] = 89 (both individually below the total length 91), the
extraction of context 0 passes every CHECK and returns a wrongly-sized view of
4294967295 bytes (uint32 wraparound of 89 - 90) instead of hitting the fatal
path. -/
theorem c5_counterexample :
    extractContextData (mkBlob 2 1 0 [] 88 [90, 89] [0, 0, 0]) 0 =
      some (90, 4294967295) ∧
    (mkBlob 2 1 0 [] 88 [90, 89] [0, 0, 0]).length = 91 := by
  constructor
  · decide
  · decide

/-- C5 (amended): every offset the extractor reads out of the header is
individually bounds-checked against the blob's total length before a view is
formed — ExtractContextOffset only returns offsets below raw_size, and
ExtractData requires start < end < raw_size — but no check compares one
context offset against the next, so a later context offset less than or equal
to an earlier one silently yields a wrongly-sized view (uint32 wraparound)
rather than triggering the fatal path. -/
theorem c5_bounds_checks (d : List Nat) (i s e v : Nat) (r : Nat × Nat) :
    (extractContextOffset d i = some v → v < d.length) ∧
    (extractData d s e = some r → s < e ∧ e < d.length ∧ r = (s, e - s)) := by
  constructor
  · intro h
    unfold extractContextOffset at h
    split_ifs at h with hc
    rw [Option.some.injEq] at h
    omega
  · intro h
    unfold extractData at h
    split_ifs at h with hc
    rw [Option.some.injEq] at h
    exact ⟨hc.1, hc.2, h.symm⟩

/-- Witness for C5: the two bounds checks evaluated on a concrete blob. -/
theorem c5_bounds_checks_witness :
    (0 < (List.replicate 91 0 : List Nat).length) ∧
    (1 < 3 ∧ 3 < (List.replicate 91 0 : List Nat).length ∧
      ((1, 2) : Nat × Nat) = (1, 3 - 1)) := by
  refine ⟨?_, ?_⟩
  · exact (c5_bounds_checks (List.replicate 91 0) 0 1 3 0 (1, 2)).1 (by decide)
  · exact (c5_bounds_checks (List.replicate 91 0) 0 1 3 0 (1, 2)).2 (by decide)

/-! ### Claim C6 -/

/-- C6 (confirmed): ExtractContextData(i) requires i < num_contexts (fatal
otherwise), and on every valid blob returns the view starting at
ContextOffset[i] whose end is ContextOffset[i+1] for every context but the
last, and the blob's total length for the last context. -/
theorem c6_extract_context (d : List Nat) (i : Nat) (hv : validBlob d = true) :
    (i < rd32 d 0 →
      extractContextData d i =
        some (rd32 d (80 + 4 * i),
          (if i = rd32 d 0 - 1 then d.length else rd32 d (80 + 4 * (i + 1))) -
            rd32 d (80 + 4 * i))) ∧
    (rd32 d 0 ≤ i → extractContextData d i = none) := by
  simp only [validBlob, Bool.and_eq_true, decide_eq_true_eq, List.all_eq_true,
    List.mem_range] at hv
  obtain ⟨⟨⟨⟨⟨⟨h76, hint⟩, hk0⟩, hSro⟩, hro0⟩, hbd⟩, hmono⟩ := hv
  have hnum : extractNumContexts d = some (rd32 d 0) := by
    unfold extractNumContexts
    rw [if_pos (by omega)]
  constructor
  · intro hik
    unfold extractContextData
    rw [hnum, Option.some_bind, if_pos hik]
    have hoff : extractContextOffset d i = some (rd32 d (80 + 4 * i)) := by
      unfold extractContextOffset
      rw [if_pos (hbd i hik)]
    rw [hoff, Option.some_bind]
    by_cases hil : i = rd32 d 0 - 1
    · rw [if_pos hil, Option.some_bind, if_pos hil]
      have hb := hbd i hik
      congr 1
      rw [Prod.mk.injEq]
      exact ⟨rfl, by omega⟩
    · rw [if_neg hil, if_neg hil]
      have hi1 : i + 1 < rd32 d 0 := by omega
      have hoff1 : extractContextOffset d (i + 1) = some (rd32 d (80 + 4 * (i + 1))) := by
        unfold extractContextOffset
        rw [if_pos (hbd (i + 1) hi1)]
      rw [hoff1, Option.some_bind, if_pos (hbd (i + 1) hi1), Option.some_bind]
      have hm := hmono i (by omega)
      have hb1 := hbd (i + 1) hi1
      congr 1
      rw [Prod.mk.injEq]
      exact ⟨rfl, by omega⟩
  · intro hle
    unfold extractContextData
    rw [hnum, Option.some_bind, if_neg (by omega)]

/-- Witness for C6: a concrete valid one-context blob — context 0 runs from its
recorded offset to the end of the blob, and requesting context 1 is fatal. -/
theorem c6_extract_context_witness :
    extractContextData (mkBlob 1 1 0 [] 89 [90] [0, 0, 0, 0, 7, 8, 9]) 0 =
      some (90, 1) ∧
    extractContextData (mkBlob 1 1 0 [] 89 [90] [0, 0, 0, 0, 7, 8, 9]) 1 = none := by
  have h0 := (c6_extract_context (mkBlob 1 1 0 [] 89 [90] [0, 0, 0, 0, 7, 8, 9]) 0
    (by decide)).1 (by decide)
  have h1 := (c6_extract_context (mkBlob 1 1 0 [] 89 [90] [0, 0, 0, 0, 7, 8, 9]) 1
    (by decide)).2 (by decide)
  exact ⟨h0.trans (by decide), h1⟩

/-! ### Claim C7 -/

/-- C7 (as stated, refuted): an attached blob whose size is zero makes
HasContextSnapshot hit the fatal `CHECK_LT(kNumberOfContextsOffset,
data->raw_size)` inside ExtractNumContexts, so the predicate is not fatal-free
for every attached blob. -/
theorem c7_counterexample :
    hasContextSnapshot (some (some [])) 0 = none := by
  decide

/-- C7 (amended): HasContextSnapshot returns false when no blob is attached or
the attached blob's data pointer is null, and for every attached blob of
positive size it returns, without any fatal check, whether the index is below
the blob's stored context count (in particular false when the index is at or
past the count).  Only a zero-size attached blob triggers the fatal bounds
check. -/
theorem c7_has_context_snapshot (d : List Nat) (i : Nat) :
    hasContextSnapshot none i = some false ∧
    hasContextSnapshot (some none) i = some false ∧
    (0 < d.length →
      hasContextSnapshot (some (some d)) i = some (decide (i < rd32 d 0))) ∧
    (0 < d.length → rd32 d 0 ≤ i →
      hasContextSnapshot (some (some d)) i = some false) := by
  refine ⟨rfl, rfl, ?_, ?_⟩
  · intro h
    show (extractNumContexts d).map (fun k => decide (i < k)) =
      some (decide (i < rd32 d 0))
    unfold extractNumContexts
    rw [if_pos h, Option.map_some']
  · intro h hle
    show (extractNumContexts d).map (fun k => decide (i < k)) = some false
    unfold extractNumContexts
    rw [if_pos h, Option.map_some']
    exact congrArg some (decide_eq_false (by omega))

/-- Witness for C7: a four-byte blob storing context count 2 — index 5 is
reported absent without a fatal check. -/
theorem c7_has_context_snapshot_witness :
    hasContextSnapshot (some (some [2, 0, 0, 0])) 5 = some false :=
  (c7_has_context_snapshot [2, 0, 0, 0] 5).2.2.2 (by decide) (by decide)

/-! ### Claim C8 -/

theorem writeCtxsProf_fst (profile : Bool) (cs : List (List Nat)) :
    ∀ (d : List (Option Nat)) (payloadOffset i : Nat) (res : List (List Nat)),
      (writeCtxsProf profile d payloadOffset i cs res).1 =
        writeCtxs d payloadOffset i cs := by
  induction cs with
  | nil => intro d p i res; rfl
  | cons c rest ih =>
      intro d p i res
      simp only [writeCtxsProf, writeCtxs]
      exact ih _ _ _ _

/-- C8 (confirmed): the byte buffer produced by CreateSnapshotBlob is identical
whether FLAG_profile_deserialization is enabled or disabled — the diagnostic
output is observational only and never reaches the produced bytes. -/
theorem c8_profiling_no_effect (p1 p2 : Bool) (ver st ro : List Nat)
    (ctxs : List (List Nat)) (rehash : Bool) (cks : List Nat → Nat)
    (stRes roRes : List Nat) (ctxRes : List (List Nat)) :
    (createSnapshotBlobProf p1 ver st ro ctxs rehash cks stRes roRes ctxRes).1 =
      (createSnapshotBlobProf p2 ver st ro ctxs rehash cks stRes roRes ctxRes).1 ∧
    (createSnapshotBlobProf p1 ver st ro ctxs rehash cks stRes roRes ctxRes).1 =
      createSnapshotBlob ver st ro ctxs rehash cks := by
  have key : ∀ p : Bool,
      (createSnapshotBlobProf p ver st ro ctxs rehash cks stRes roRes ctxRes).1 =
        createSnapshotBlob ver st ro ctxs rehash cks := by
    intro p
    simp only [createSnapshotBlobProf, createSnapshotBlob, createSnapshotBlobRaw]
    rw [writeCtxsProf_fst]
  exact ⟨(key p1).trans (key p2).symm, key p1⟩

/-! ### Claim C9 -/

/-- C9 (as stated, refuted): the buffer is not zero-initialized over
total_length bytes.  For a one-context blob of total length 91 the allocation
plus memset (snapshot.cc:250-252) zeroes only the first
StartupSnapshotOffset(1) = 88 bytes; byte 88 is still uninitialized. -/
theorem c9_counterexample :
    (allocatedPrePayloadBuffer 1 91).getD 88 (some 0) = none := by
  decide

/-- C9 (amended): CreateSnapshotBlob zeroes only the pre-payload region (header
plus alignment padding, StartupSnapshotOffset(num_contexts) bytes); every byte
of the payload region is then covered by a segment copy, so every byte of the
produced buffer is initialized, and the alignment-padding bytes between the
context-offset array and the startup offset are zero. -/
theorem c9_no_uninitialized (ver st ro : List Nat) (ctxs : List (List Nat))
    (rehash : Bool) (cks : List Nat → Nat) :
    ((createSnapshotBlobRaw ver st ro ctxs rehash cks).all fun b => b.isSome) = true ∧
    ((createSnapshotBlob ver st ro ctxs rehash cks).drop (80 + 4 * ctxs.length)).take
        (startupSnapshotOffset ctxs.length - (80 + 4 * ctxs.length)) =
      List.replicate (startupSnapshotOffset ctxs.length - (80 + 4 * ctxs.length)) 0 := by
  constructor
  · rw [createSnapshotBlobRaw_eq, List.all_eq_true]
    intro x hx
    rw [List.mem_map] at hx
    obtain ⟨a, _, rfl⟩ := hx
    rfl
  · rw [createSnapshotBlob_eq,
      show assembledBlob ver st ro ctxs rehash cks =
        (le32 ctxs.length ++ (le32 (if rehash then 1 else 0) ++
          (le32 (cks (blobTail ver st ro ctxs)) ++ (pad64 ver ++
            (le32 (startupSnapshotOffset ctxs.length + st.length) ++
              ctxOffsetsBytes (startupSnapshotOffset ctxs.length + st.length + ro.length)
                ctxs))))) ++
          (List.replicate (startupSnapshotOffset ctxs.length - (80 + 4 * ctxs.length)) 0 ++
            (st ++ (ro ++ ctxs.flatten))) from by
        simp only [assembledBlob, blobTail, List.append_assoc]]
    rw [drop_of_prefix_length _ _ _
      (by simp [length_le32, length_pad64, length_ctxOffsetsBytes]; omega)]
    rw [take_of_prefix_length _ _ _ (by simp)]

/-! ### Claim C10 -/

/-- C10 (confirmed): extraction of a zero-length segment is fatal rather than
returning an empty view — ExtractData requires start < end and
end < raw_size, so a blob whose startup offset equals its stored read-only
offset (empty startup segment) or whose read-only offset equals
ContextOffset[0] (empty read-only segment) makes ExtractStartupData
respectively ExtractReadOnlyData hit the fatal CHECK. -/
theorem c10_empty_segment_fatal (d : List Nat) (s e : Nat) :
    (extractData d s s = none) ∧
    (0 < d.length → rd32 d 76 = startupSnapshotOffset (rd32 d 0) →
      extractStartupData d = none) ∧
    (rd32 d 80 = rd32 d 76 → extractReadOnlyData d = none) ∧
    (¬(s < e ∧ e < d.length) → extractData d s e = none) := by
  refine ⟨?_, ?_, ?_, ?_⟩
  · unfold extractData
    rw [if_neg (by omega)]
  · intro h0 heq
    unfold extractStartupData extractNumContexts
    rw [if_pos h0, Option.some_bind]
    unfold extractData
    rw [heq, if_neg (by omega)]
  · intro heq
    unfold extractReadOnlyData extractData
    rw [heq, if_neg (by omega)]
  · intro hne
    unfold extractData
    rw [if_neg hne]

/-- Witness for C10: a concrete blob whose startup offset, stored read-only
offset and ContextOffset[0] all coincide — both extractions are fatal, as is
any empty or inverted range. -/
theorem c10_empty_segment_fatal_witness :
    extractData (mkBlob 1 0 0 [] 88 [88] [1, 2, 3]) 5 5 = none ∧
    extractStartupData (mkBlob 1 0 0 [] 88 [88] [1, 2, 3]) = none ∧
    extractReadOnlyData (mkBlob 1 0 0 [] 88 [88] [1, 2, 3]) = none ∧
    extractData (mkBlob 1 0 0 [] 88 [88] [1, 2, 3]) 5 0 = none := by
  refine ⟨?_, ?_, ?_, ?_⟩
  · exact (c10_empty_segment_fatal (mkBlob 1 0 0 [] 88 [88] [1, 2, 3]) 5 5).1
  · exact (c10_empty_segment_fatal (mkBlob 1 0 0 [] 88 [88] [1, 2, 3]) 5 5).2.1
      (by decide) (by decide)
  · exact (c10_empty_segment_fatal (mkBlob 1 0 0 [] 88 [88] [1, 2, 3]) 5 5).2.2.1
      (by decide)
  · exact (c10_empty_segment_fatal (mkBlob 1 0 0 [] 88 [88] [1, 2, 3]) 5 0).2.2.2
      (by decide)

end SnapshotModel
